import Mathlib

/-!
# Verification of the SPS-Backend notes lifecycle (`src/endpoints/notes.rs`)

A shallow embedding of the note endpoints of the SPS backend.  The system
state visible to these endpoints consists of the account table
(`tblAccount`), the notes table (`tblNotes`), the static-file directory on
disk, and the process configuration (`SETTINGS`).  Database queries and
filesystem calls can fail for transport reasons; each such call site gets an
explicit boolean failure flag, so an execution of an endpoint is a function
of the request arguments, the injected failures, and the starting state.

Machine integers (`i32`) are modelled as `Int`; none of the operations here
perform arithmetic, so overflow is irrelevant.  File contents (the uploaded
`TempFile` bodies) are modelled as `String`.
-/

namespace SPS

/-- The API error type (`src/endpoints/errors.rs`, used via
`ApiErrors::NotFound` / `ApiErrors::InternalError` in `notes.rs`).
Each constructor carries the human-readable message string. -/
inductive ApiErrors where
  | NotFound (msg : String)
  | InternalError (msg : String)
deriving DecidableEq, Repr

/-- Modelled from the spec: the row type of `tblNotes` (`db::Note`; the
`db` module is not among the provided sources).  Per spec §3 and the SQL in
`notes.rs` (`SELECT * FROM tblNotes`, `INSERT INTO tblNotes (account_id,
url, title)`), a record has a generated integer key `note_id`, the owning
`account_id`, a mutable `title`, and the blob `url`. -/
structure Note where
  note_id : Int
  account_id : Int
  title : String
  url : String
deriving DecidableEq, Repr

/-- Modelled from the spec: the externally visible projection of a note
(`note_files::NoteFile`; the `note_files` module is not among the provided
sources).  Spec §3 NoteView: `{ note_id, title, url }`, built per-read from
a `Note` record. -/
structure NoteFile where
  note_id : Int
  title : String
  url : String
deriving DecidableEq, Repr

/-- Modelled from the spec: the `From<&db::Note>` projection used by
`fetch_notes` (`note.into()`): drop the owning account, keep identifier,
title and url. -/
def Note.toNoteFile (n : Note) : NoteFile :=
  { note_id := n.note_id, title := n.title, url := n.url }

/-- Strip a single leading `"./"` from a path.  This models the operating
system's resolution of relative paths: `"./p"` and `"p"` name the same file
relative to the process working directory.  (The endpoints build paths both
as `format!("{}/{}.md", static_dir, name)` and as
`format!("./{}", url)`, so the model must identify `"./x"` with `"x"`.) -/
def stripDS (l : List Char) : List Char :=
  if l.take 2 = ['.', '/'] then l.drop 2 else l

/-- Path normalisation on strings: strip one leading `"./"`. -/
def stripDotSlash (p : String) : String :=
  ⟨stripDS p.data⟩

/-- The static-file store: an association list from normalised paths to
file contents. -/
def Files := List (String × String)
deriving DecidableEq, Repr

/-- Look up the content stored at a path (modulo `"./"` resolution). -/
def fsLookup (fs : Files) (p : String) : Option String :=
  List.lookup (stripDotSlash p) fs

/-- Remove the entry at a path. -/
def fsErase (fs : Files) (p : String) : Files :=
  List.filter (fun e => e.1 ≠ stripDotSlash p) fs

/-- Write content at a path, replacing any previous entry
(`TempFile::persist_to`). -/
def fsWrite (fs : Files) (p : String) (content : String) : Files :=
  (stripDotSlash p, content) :: fsErase fs p

/-- The system state an endpoint execution can observe and mutate:
the account table, the notes table, the static files on disk, and the
configured `static_file_directory` (`none` models a missing configuration
key, on which `settings.get` fails). -/
structure SysState where
  accounts : List Int
  notes : List Note
  files : Files
  static_dir : Option String
deriving DecidableEq, Repr

/-- The account-existence query of `fetch_notes` and `add_note`
(`SELECT account_id FROM tblAccount WHERE account_id = ?` via `fetch_one`):
`fetch_one` errors both when the transport fails and when no row matches,
and the callers do not distinguish the two. -/
def accountQuery (s : SysState) (transportFails : Bool) (account_id : Int) :
    Except Unit Unit :=
  if transportFails then .error ()
  else if account_id ∈ s.accounts then .ok () else .error ()

/-- The record fetch of the update/delete endpoints
(`SELECT * FROM tblNotes WHERE note_id = ?` via `fetch_one`): errors on
transport failure or when no row matches; otherwise returns the first
matching row. -/
def noteQuery (s : SysState) (transportFails : Bool) (note_id : Int) :
    Except Unit Note :=
  if transportFails then .error ()
  else
    match s.notes.find? (fun n => n.note_id = note_id) with
    | some n => .ok n
    | none => .error ()

/-- `fetch_notes` (GET `/notes/<account_id>`, `notes.rs:63`): check the
account exists, then `SELECT * FROM tblNotes WHERE account_id = ?` via
`fetch_all` (which succeeds with an empty vector when there are no rows),
and project each row through `NoteFile`.  Read-only: no state returned. -/
def fetch_notes (account_id : Int)
    (accountQueryFails notesQueryFails : Bool) (s : SysState) :
    Except ApiErrors (List NoteFile) :=
  match accountQuery s accountQueryFails account_id with
  | .error _ => .error (.NotFound "User account not found")
  | .ok _ =>
    if notesQueryFails then
      .error (.NotFound "No notes where found")
    else
      .ok (((s.notes.filter (fun n => n.account_id = account_id)).map
        Note.toNoteFile))

/-- `add_note` (POST `/notes/<account_id>/<note_title>`, `notes.rs:102`):
check the account exists; generate a fresh identifier (`Uuid::new_v4`,
modelled as the parameter `file_name`); read the configured
`static_file_directory`; persist the uploaded file to
`"{static_dir}/{file_name}.md"`; insert the record with url
`"static/{file_name}.md"` (the generated key it receives is modelled as
`new_note_id`).  Returns the result together with the post-state. -/
def add_note (account_id : Int) (note_title : String) (note_file : String)
    (file_name : String) (new_note_id : Int)
    (accountQueryFails persistFails insertFails : Bool) (s : SysState) :
    Except ApiErrors Unit × SysState :=
  match accountQuery s accountQueryFails account_id with
  | .error _ => (.error (.NotFound "User account not found"), s)
  | .ok _ =>
    match s.static_dir with
    | none => (.error (.InternalError "Unable to find static file directory"), s)
    | some static_dir =>
      if persistFails then
        (.error (.InternalError "Unable to save file"), s)
      else if insertFails then
        (.error (.InternalError "Unable to save file in database"),
         { s with
           files := fsWrite s.files
             (static_dir ++ "/" ++ file_name ++ ".md") note_file })
      else
        (.ok (),
         { s with
           files := fsWrite s.files
             (static_dir ++ "/" ++ file_name ++ ".md") note_file,
           notes := s.notes ++
             [{ note_id := new_note_id, account_id := account_id,
                title := note_title,
                url := "static/" ++ file_name ++ ".md" }] })

/-- `update_note_content` (PUT `/notes/<note_id>`, `notes.rs:161`):
fetch the record; compute `"./{url}"`; `tokio::fs::remove_file` that path
(fails when the file is absent or on an injected fault, leaving the
filesystem unchanged); then persist the new content to the same path. -/
def update_note_content (note_id : Int) (note_file : String)
    (fetchFails removeFails persistFails : Bool) (s : SysState) :
    Except ApiErrors Unit × SysState :=
  match noteQuery s fetchFails note_id with
  | .error _ => (.error (.NotFound "Note not found"), s)
  | .ok db_note =>
    if removeFails || (fsLookup s.files ("./" ++ db_note.url)).isNone then
      (.error (.InternalError "Unable to update static file"), s)
    else if persistFails then
      (.error (.InternalError "Unable to update static file"),
       { s with files := fsErase s.files ("./" ++ db_note.url) })
    else
      (.ok (),
       { s with
         files := fsWrite (fsErase s.files ("./" ++ db_note.url))
           ("./" ++ db_note.url) note_file })

/-- `update_note_title` (PUT `/notes/<note_id>/<note_title>`,
`notes.rs:207`): identical to `update_note_content`, then additionally
`UPDATE tblNotes SET title = ? WHERE note_id = ?`. -/
def update_note_title (note_id : Int) (note_title : String)
    (note_file : String)
    (fetchFails removeFails persistFails titleUpdateFails : Bool)
    (s : SysState) : Except ApiErrors Unit × SysState :=
  match noteQuery s fetchFails note_id with
  | .error _ => (.error (.NotFound "Note not found"), s)
  | .ok db_note =>
    if removeFails || (fsLookup s.files ("./" ++ db_note.url)).isNone then
      (.error (.InternalError "Unable to update static file"), s)
    else if persistFails then
      (.error (.InternalError "Unable to update static file"),
       { s with files := fsErase s.files ("./" ++ db_note.url) })
    else if titleUpdateFails then
      (.error (.InternalError "Failed to update the notes title"),
       { s with
         files := fsWrite (fsErase s.files ("./" ++ db_note.url))
           ("./" ++ db_note.url) note_file })
    else
      (.ok (),
       { s with
         files := fsWrite (fsErase s.files ("./" ++ db_note.url))
           ("./" ++ db_note.url) note_file,
         notes := s.notes.map (fun n =>
           if n.note_id = note_id then { n with title := note_title }
           else n) })

/-- `remove_note` (DELETE `/notes/<note_id>`, `notes.rs:258`): fetch the
record; `remove_file("./{url}")`; then
`DELETE FROM tblNotes WHERE note_id = ?`. -/
def remove_note (note_id : Int)
    (fetchFails removeFails deleteFails : Bool) (s : SysState) :
    Except ApiErrors Unit × SysState :=
  match noteQuery s fetchFails note_id with
  | .error _ => (.error (.NotFound "Note not found"), s)
  | .ok db_note =>
    if removeFails || (fsLookup s.files ("./" ++ db_note.url)).isNone then
      (.error (.InternalError "Unable to delete static file"), s)
    else if deleteFails then
      (.error (.InternalError "Unable to remove file from database"),
       { s with files := fsErase s.files ("./" ++ db_note.url) })
    else
      (.ok (),
       { s with
         files := fsErase s.files ("./" ++ db_note.url),
         notes := s.notes.filter (fun n => n.note_id ≠ note_id) })

/-! ## Path-normalisation lemmas -/

lemma stripDotSlash_dotSlash (u : String) : stripDotSlash ("./" ++ u) = u := by
  have h : ("./" ++ u).data = '.' :: '/' :: u.data := by
    rw [String.data_append]; rfl
  unfold stripDotSlash
  rw [h]
  simp [stripDS]

lemma path_data (d f : String) :
    (d ++ "/" ++ f ++ ".md").data = d.data ++ ('/' :: (f.data ++ ['.', 'm', 'd'])) := by
  simp [String.data_append]

lemma static_path_data (f : String) :
    ("static/" ++ f ++ ".md").data =
      ['s','t','a','t','i','c'] ++ ('/' :: (f.data ++ ['.', 'm', 'd'])) := by
  simp [String.data_append]

/-- If the configured directory is neither `"static"` nor `"./static"`,
the path `add_note` persists to and the path the update/delete endpoints
resolve from the stored url name different files. -/
lemma strip_ne (d f : String) (h1 : d ≠ "static") (h2 : d ≠ "./static") :
    stripDotSlash (d ++ "/" ++ f ++ ".md") ≠ "static/" ++ f ++ ".md" := by
  intro h
  have h' : stripDS ((d ++ "/" ++ f ++ ".md").data) = ("static/" ++ f ++ ".md").data :=
    congrArg String.data h
  rw [path_data, static_path_data] at h'
  set u : List Char := f.data ++ ['.', 'm', 'd'] with hu
  by_cases hc : (d.data ++ '/' :: u).take 2 = ['.', '/']
  · obtain ⟨l⟩ := d
    rcases l with _ | ⟨c1, _ | ⟨c2, l2⟩⟩
    · simp only [List.nil_append, List.take_succ_cons] at hc
      injection hc with hx _
      exact absurd hx (by decide)
    · simp only [List.cons_append, List.nil_append, List.take_succ_cons,
        List.take_zero] at hc
      simp only [stripDS, List.cons_append, List.nil_append] at h'
      rw [if_pos (by simpa using hc)] at h'
      simp only [List.drop_succ_cons, List.drop_zero] at h'
      have hlen := congrArg List.length h'
      simp only [List.length_append, List.length_cons] at hlen
      omega
    · simp only [List.cons_append, List.take_succ_cons, List.take_zero] at hc
      simp only [stripDS, List.cons_append] at h'
      rw [if_pos (by simpa using hc)] at h'
      simp only [List.drop_succ_cons, List.drop_zero] at h'
      have hl2 : l2 = ['s','t','a','t','i','c'] := List.append_cancel_right h'
      apply h2
      apply String.ext
      show c1 :: c2 :: l2 = _
      have hc1 : c1 = '.' := by injection hc
      have hc2 : c2 = '/' := by
        injection hc with _ hrest
        injection hrest
      rw [hc1, hc2, hl2]
  · rw [stripDS, if_neg hc] at h'
    have hd : d.data = ['s','t','a','t','i','c'] := List.append_cancel_right h'
    apply h1
    apply String.ext
    rw [hd]

/-- With directory `"static"`, the creation path and the stored url name
the same file. -/
lemma strip_static (f : String) :
    stripDotSlash ("static" ++ "/" ++ f ++ ".md") = "static/" ++ f ++ ".md" := by
  apply String.ext
  show stripDS (("static" ++ "/" ++ f ++ ".md").data) = ("static/" ++ f ++ ".md").data
  rw [path_data, static_path_data]
  have hs : "static".data = ['s','t','a','t','i','c'] := rfl
  rw [hs, stripDS, if_neg ?hne]
  case hne =>
    intro hx
    simp only [List.cons_append, List.take_succ_cons, List.take_zero] at hx
    injection hx with h1 _
    exact absurd h1 (by decide)

/-- With directory `"./static"`, the creation path and the stored url name
the same file. -/
lemma strip_dotstatic (f : String) :
    stripDotSlash ("./static" ++ "/" ++ f ++ ".md") = "static/" ++ f ++ ".md" := by
  apply String.ext
  show stripDS (("./static" ++ "/" ++ f ++ ".md").data) = ("static/" ++ f ++ ".md").data
  rw [path_data, static_path_data]
  have hs : "./static".data = '.' :: '/' :: ['s','t','a','t','i','c'] := rfl
  rw [hs, stripDS, if_pos ?hpos]
  case hpos =>
    simp
  simp

/-- A stored url of the shape `"static/<name>.md"` is already in normal
form: it does not start with `"./"`. -/
lemma strip_static_url (f : String) :
    stripDotSlash ("static/" ++ f ++ ".md") = "static/" ++ f ++ ".md" := by
  apply String.ext
  show stripDS (("static/" ++ f ++ ".md").data) = ("static/" ++ f ++ ".md").data
  rw [static_path_data]
  rw [stripDS, if_neg ?hne]
  case hne =>
    intro hx
    simp only [List.cons_append, List.take_succ_cons, List.take_zero] at hx
    injection hx with h1 _
    exact absurd h1 (by decide)

/-! ## File-store lemmas -/

lemma fsLookup_fsWrite_self (fs : Files) (p c : String) :
    fsLookup (fsWrite fs p c) p = some c := by
  simp [fsLookup, fsWrite, List.lookup]

lemma fsLookup_fsErase_ne (fs : Files) (pq pe : String)
    (h : stripDotSlash pq ≠ stripDotSlash pe) :
    fsLookup (fsErase fs pe) pq = fsLookup fs pq := by
  unfold fsLookup fsErase
  induction fs with
  | nil => rfl
  | cons e l ih =>
    by_cases he : e.1 = stripDotSlash pe
    · rw [List.filter_cons_of_neg (by simp [he])]
      rw [ih]
      have : (stripDotSlash pq == e.1) = false := by
        simp [he]
        exact h
      simp [List.lookup, this]
    · rw [List.filter_cons_of_pos (by simp [he])]
      cases hq : (stripDotSlash pq == e.1) with
      | false =>
        simp only [List.lookup, hq]
        simpa using ih
      | true => simp [List.lookup, hq]

lemma fsLookup_fsWrite_ne (fs : Files) (pq pw c : String)
    (h : stripDotSlash pq ≠ stripDotSlash pw) :
    fsLookup (fsWrite fs pw c) pq = fsLookup fs pq := by
  unfold fsWrite
  have : fsLookup ((stripDotSlash pw, c) :: fsErase fs pw) pq =
      fsLookup (fsErase fs pw) pq := by
    have hb : (stripDotSlash pq == stripDotSlash pw) = false := by
      simpa using h
    simp [fsLookup, List.lookup, hb]
  rw [this, fsLookup_fsErase_ne fs pq pw h]

/-! ## Record-table lemmas -/

lemma find?_id_append (l : List Note) (new : Note) (nid : Int)
    (hid : new.note_id = nid) (h : ∀ n ∈ l, n.note_id ≠ nid) :
    (l ++ [new]).find? (fun n => n.note_id = nid) = some new := by
  rw [List.find?_append]
  have h1 : l.find? (fun n => n.note_id = nid) = none :=
    List.find?_eq_none.mpr (fun n hn => by simpa using h n hn)
  simp [h1, List.find?, hid]

lemma find?_id_map_append (l : List Note) (new : Note) (nid : Int) (t : String)
    (hid : new.note_id = nid) (h : ∀ n ∈ l, n.note_id ≠ nid) :
    ((l ++ [new]).map (fun n => if n.note_id = nid then { n with title := t }
        else n)).find? (fun n => n.note_id = nid) =
      some { new with title := t } := by
  rw [List.map_append]
  rw [List.find?_append]
  have h1 : (l.map (fun n => if n.note_id = nid then { n with title := t }
      else n)).find? (fun n => n.note_id = nid) = none := by
    apply List.find?_eq_none.mpr
    intro x hx
    rw [List.mem_map] at hx
    obtain ⟨n, hn, rfl⟩ := hx
    have := h n hn
    by_cases hni : n.note_id = nid <;> simp [hni] at this ⊢
  simp [h1, List.find?, hid]

/-- `update_note_content` never touches the notes table. -/
lemma update_note_content_notes (s : SysState) (i : Int) (c : String)
    (q r p : Bool) :
    ((update_note_content i c q r p s).2).notes = s.notes := by
  unfold update_note_content noteQuery
  repeat' split
  all_goals rfl

/-- `update_note_title` leaves the notes table unchanged or rewrites
exactly the title column of the rows matching the requested id. -/
lemma update_note_title_notes (s : SysState) (i : Int) (t c : String)
    (q r p u : Bool) :
    ((update_note_title i t c q r p u s).2).notes = s.notes ∨
    ((update_note_title i t c q r p u s).2).notes =
      s.notes.map (fun n => if n.note_id = i then { n with title := t }
        else n) := by
  unfold update_note_title noteQuery
  repeat' split
  all_goals first | exact Or.inl rfl | exact Or.inr rfl

/-! ## Claims -/

/-- C1 (counterexample): the claim says that for an existing account with
zero notes, ListNotes returns not-found and never a successful empty list.
In the code, the notes query uses `fetch_all`, which succeeds with an empty
vector when no rows match, and `fetch_notes` has no emptiness check (unlike
`fetch_protocols`): with account 1 present and zero notes, `fetch_notes`
returns `Ok` with the empty list. -/
theorem C1_counterexample :
    (1 : Int) ∈ (SysState.mk [1] [] [] (some "static")).accounts ∧
    (SysState.mk [1] [] [] (some "static")).notes.filter
      (fun n => n.account_id = 1) = [] ∧
    fetch_notes 1 false false (SysState.mk [1] [] [] (some "static")) =
      .ok [] := by
  refine ⟨by decide, rfl, rfl⟩

/-- C1 (amended): for every account present in the account store with zero
notes, `fetch_notes` without query failures returns a successful empty
list; the not-found outcomes of ListNotes are reserved for an unknown
account and for a failing notes query. -/
theorem C1_zero_notes_empty_success (s : SysState) (a : Int)
    (h1 : a ∈ s.accounts)
    (h2 : s.notes.filter (fun n => n.account_id = a) = []) :
    fetch_notes a false false s = .ok [] := by
  unfold fetch_notes accountQuery
  simp [h1, h2]

theorem C1_witness :
    ((1 : Int) ∈ (SysState.mk [1] [] [] (some "static")).accounts ∧
     (SysState.mk [1] [] [] (some "static")).notes.filter
       (fun n => n.account_id = 1) = []) ∧
    fetch_notes 1 false false (SysState.mk [1] [] [] (some "static")) = .ok [] :=
  ⟨⟨by decide, rfl⟩,
   C1_zero_notes_empty_success (SysState.mk [1] [] [] (some "static")) 1
     (by decide) rfl⟩

/-- C2: for an account id not present in the account store, `fetch_notes`
and `add_note` return not-found and `add_note` leaves the whole state —
in particular the blob store — unchanged, for every combination of
injected collaborator failures: no orphan blob can be created for a
nonexistent account. -/
theorem C2_unknown_account_no_write (s : SysState) (a : Int)
    (h : a ∉ s.accounts) (q1 q2 p i : Bool) (t c f : String) (nid : Int) :
    fetch_notes a q1 q2 s = .error (.NotFound "User account not found") ∧
    add_note a t c f nid q1 p i s =
      (.error (.NotFound "User account not found"), s) := by
  unfold fetch_notes add_note accountQuery
  rcases q1 with _ | _ <;> simp [h]

theorem C2_witness :
    ((2 : Int) ∉ (SysState.mk [1] [] [] (some "static")).accounts) ∧
    (fetch_notes 2 false false (SysState.mk [1] [] [] (some "static")) =
       .error (.NotFound "User account not found") ∧
     add_note 2 "T" "C" "f" 7 false false false
       (SysState.mk [1] [] [] (some "static")) =
       (.error (.NotFound "User account not found"),
        SysState.mk [1] [] [] (some "static"))) :=
  ⟨by decide,
   C2_unknown_account_no_write (SysState.mk [1] [] [] (some "static")) 2
     (by decide) false false false false "T" "C" "f" 7⟩

/-- C3: `add_note` persists the blob before inserting the record.  When
the record insert fails, the result is
`InternalError "Unable to save file in database"`, the already-written
blob is still present (not rolled back — an orphan blob remains) and the
notes table is unchanged; when the insert succeeds, blob and record are
both present.  In neither outcome does a record exist whose blob is
missing. -/
theorem C3_blob_before_record (s : SysState) (a : Int) (d t c f : String)
    (nid : Int) (hacc : a ∈ s.accounts) (hdir : s.static_dir = some d) :
    add_note a t c f nid false false true s =
      (.error (.InternalError "Unable to save file in database"),
       { s with files := fsWrite s.files (d ++ "/" ++ f ++ ".md") c }) ∧
    add_note a t c f nid false false false s =
      (.ok (),
       { s with
         files := fsWrite s.files (d ++ "/" ++ f ++ ".md") c,
         notes := s.notes ++ [Note.mk nid a t ("static/" ++ f ++ ".md")] }) := by
  unfold add_note accountQuery
  simp [hacc, hdir]

theorem C3_witness :
    ((1 : Int) ∈ (SysState.mk [1] [] [] (some "static")).accounts ∧
     (SysState.mk [1] [] [] (some "static")).static_dir = some "static") ∧
    (add_note 1 "T" "C" "f" 7 false false true
        (SysState.mk [1] [] [] (some "static")) =
      (.error (.InternalError "Unable to save file in database"),
       { SysState.mk [1] [] [] (some "static") with
         files := fsWrite [] ("static" ++ "/" ++ "f" ++ ".md") "C" }) ∧
     add_note 1 "T" "C" "f" 7 false false false
        (SysState.mk [1] [] [] (some "static")) =
      (.ok (),
       { SysState.mk [1] [] [] (some "static") with
         files := fsWrite [] ("static" ++ "/" ++ "f" ++ ".md") "C",
         notes := [] ++ [Note.mk 7 1 "T" ("static/" ++ "f" ++ ".md")] })) :=
  ⟨⟨by decide, rfl⟩,
   C3_blob_before_record (SysState.mk [1] [] [] (some "static")) 1
     "static" "T" "C" "f" 7 (by decide) rfl⟩

/-- C4: both update endpoints delete the existing blob unconditionally
before writing.  If the delete fails — by an injected fault or because the
file is already missing — the whole operation fails with
`InternalError "Unable to update static file"` and the state is unchanged:
no new content is written and the operation does not fall back to
creating the file anew. -/
theorem C4_delete_failure_aborts (s : SysState) (i : Int) (r : Note)
    (c t : String) (rm p u : Bool)
    (hfind : s.notes.find? (fun n => n.note_id = i) = some r)
    (hfail : rm = true ∨ fsLookup s.files ("./" ++ r.url) = none) :
    update_note_content i c false rm p s =
      (.error (.InternalError "Unable to update static file"), s) ∧
    update_note_title i t c false rm p u s =
      (.error (.InternalError "Unable to update static file"), s) := by
  unfold update_note_content update_note_title noteQuery
  rcases hfail with hfail | hfail <;>
    simp [hfind, hfail, Option.isNone_iff_eq_none]

theorem C4_witness :
    ((SysState.mk [1] [Note.mk 5 1 "T" "static/x.md"] []
        (some "static")).notes.find? (fun n => n.note_id = 5) =
      some (Note.mk 5 1 "T" "static/x.md") ∧
     (false = true ∨
      fsLookup (SysState.mk [1] [Note.mk 5 1 "T" "static/x.md"] []
        (some "static")).files ("./" ++ "static/x.md") = none)) ∧
    (update_note_content 5 "C2" false false false
        (SysState.mk [1] [Note.mk 5 1 "T" "static/x.md"] [] (some "static")) =
      (.error (.InternalError "Unable to update static file"),
       SysState.mk [1] [Note.mk 5 1 "T" "static/x.md"] [] (some "static")) ∧
     update_note_title 5 "T2" "C2" false false false false
        (SysState.mk [1] [Note.mk 5 1 "T" "static/x.md"] [] (some "static")) =
      (.error (.InternalError "Unable to update static file"),
       SysState.mk [1] [Note.mk 5 1 "T" "static/x.md"] [] (some "static"))) :=
  ⟨⟨rfl, Or.inr rfl⟩,
   C4_delete_failure_aborts
     (SysState.mk [1] [Note.mk 5 1 "T" "static/x.md"] [] (some "static"))
     5 (Note.mk 5 1 "T" "static/x.md") "C2" "T2" false false false
     rfl (Or.inr rfl)⟩

/-- C5: content updates never mutate the record.  `update_note_content`
leaves the notes table untouched on every path, and `update_note_title`
either leaves it untouched or rewrites exactly the title column of the
matching rows; in every case the url, note id and account id columns of
the table are unchanged — no new identifier or url is written on update. -/
theorem C5_update_frame (s : SysState) (i : Int) (c t : String)
    (q r p u : Bool) :
    ((update_note_content i c q r p s).2).notes = s.notes ∧
    (((update_note_title i t c q r p u s).2).notes = s.notes ∨
     ((update_note_title i t c q r p u s).2).notes =
       s.notes.map (fun n => if n.note_id = i then { n with title := t }
         else n)) ∧
    ((update_note_title i t c q r p u s).2).notes.map Note.url =
      s.notes.map Note.url ∧
    ((update_note_title i t c q r p u s).2).notes.map Note.note_id =
      s.notes.map Note.note_id ∧
    ((update_note_title i t c q r p u s).2).notes.map Note.account_id =
      s.notes.map Note.account_id := by
  refine ⟨update_note_content_notes s i c q r p,
    update_note_title_notes s i t c q r p u, ?_, ?_, ?_⟩ <;>
    rcases update_note_title_notes s i t c q r p u with h | h <;>
      rw [h] <;> try rfl
  all_goals
    rw [List.map_map]
    apply List.map_congr_left
    intro n _
    by_cases hn : n.note_id = i <;> simp [hn]

/-- C6: in `update_note_title` the title column is written only after the
file delete and write have succeeded.  When the title update then fails,
the operation returns `InternalError "Failed to update the notes title"`
while the blob at the record's path has already been replaced with the new
content and the notes table still holds the old title: content updated,
title stale — the operation is not atomic. -/
theorem C6_title_update_last (s : SysState) (i : Int) (r : Note)
    (t c b : String)
    (hfind : s.notes.find? (fun n => n.note_id = i) = some r)
    (hfile : fsLookup s.files ("./" ++ r.url) = some b) :
    update_note_title i t c false false false true s =
      (.error (.InternalError "Failed to update the notes title"),
       { s with
         files := fsWrite (fsErase s.files ("./" ++ r.url))
           ("./" ++ r.url) c }) := by
  unfold update_note_title noteQuery
  simp [hfind, hfile]

theorem C6_witness :
    ((SysState.mk [1] [Note.mk 5 1 "T" "static/x.md"]
        [("static/x.md", "OLD")] (some "static")).notes.find?
        (fun n => n.note_id = 5) = some (Note.mk 5 1 "T" "static/x.md") ∧
     fsLookup (SysState.mk [1] [Note.mk 5 1 "T" "static/x.md"]
        [("static/x.md", "OLD")] (some "static")).files
       ("./" ++ "static/x.md") = some "OLD") ∧
    update_note_title 5 "T2" "C2" false false false true
        (SysState.mk [1] [Note.mk 5 1 "T" "static/x.md"]
          [("static/x.md", "OLD")] (some "static")) =
      (.error (.InternalError "Failed to update the notes title"),
       { SysState.mk [1] [Note.mk 5 1 "T" "static/x.md"]
           [("static/x.md", "OLD")] (some "static") with
         files := fsWrite
           (fsErase [("static/x.md", "OLD")] ("./" ++ "static/x.md"))
           ("./" ++ "static/x.md") "C2" }) :=
  ⟨⟨rfl, by decide⟩,
   C6_title_update_last
     (SysState.mk [1] [Note.mk 5 1 "T" "static/x.md"]
       [("static/x.md", "OLD")] (some "static"))
     5 (Note.mk 5 1 "T" "static/x.md") "T2" "C2" "OLD" rfl (by decide)⟩

/-- C7: `remove_note` on a note id with no matching record returns
not-found and performs no mutation at all — blob store and record store
are returned exactly as they were — for every combination of injected
collaborator failures. -/
theorem C7_delete_unknown_no_mutation (s : SysState) (i : Int)
    (h : ∀ n ∈ s.notes, n.note_id ≠ i) (q r d : Bool) :
    remove_note i q r d s = (.error (.NotFound "Note not found"), s) := by
  unfold remove_note noteQuery
  have hf : s.notes.find? (fun n => n.note_id = i) = none := by
    rw [List.find?_eq_none]
    intro n hn
    simpa using h n hn
  rcases q with _ | _ <;> simp [hf]

theorem C7_witness :
    (∀ n ∈ (SysState.mk [1] [Note.mk 5 1 "T" "static/x.md"]
        [("static/x.md", "C")] (some "static")).notes, n.note_id ≠ 9) ∧
    remove_note 9 false false false
      (SysState.mk [1] [Note.mk 5 1 "T" "static/x.md"]
        [("static/x.md", "C")] (some "static")) =
      (.error (.NotFound "Note not found"),
       SysState.mk [1] [Note.mk 5 1 "T" "static/x.md"]
         [("static/x.md", "C")] (some "static")) :=
  ⟨by decide,
   C7_delete_unknown_no_mutation
     (SysState.mk [1] [Note.mk 5 1 "T" "static/x.md"]
       [("static/x.md", "C")] (some "static")) 9 (by decide)
     false false false⟩

/-- C8 (counterexample): the claim says a transport failure of the
account-existence query is mapped to an internal error, per the spec's
`accountExists`/propagation policy.  In the code both endpoints match the
`fetch_one` result with a single `Err(_)` arm mapped to
`NotFound("User account not found")`, so a transport failure — here
injected while account 1 does exist — yields not-found, not an internal
error. -/
theorem C8_counterexample :
    (1 : Int) ∈ (SysState.mk [1] [] [] (some "static")).accounts ∧
    fetch_notes 1 true false (SysState.mk [1] [] [] (some "static")) =
      .error (.NotFound "User account not found") ∧
    add_note 1 "T" "C" "f" 7 true false false
      (SysState.mk [1] [] [] (some "static")) =
      (.error (.NotFound "User account not found"),
       SysState.mk [1] [] [] (some "static")) := by
  refine ⟨by decide, rfl, rfl⟩

/-- C8 (amended): the account-existence check does not distinguish its two
failure modes.  Every failure of the account query — absence of a matching
row or a transport failure — is mapped to
`NotFound "User account not found"` in both ListNotes and CreateNote; no
execution maps the failing account query to an internal error. -/
theorem C8_transport_failure_not_found (s : SysState) (a : Int)
    (q2 p i : Bool) (t c f : String) (nid : Int) :
    fetch_notes a true q2 s = .error (.NotFound "User account not found") ∧
    add_note a t c f nid true p i s =
      (.error (.NotFound "User account not found"), s) := by
  unfold fetch_notes add_note accountQuery
  simp

/-- C9: round trip.  For an existing account, after a successful
`add_note` (title `T`, content `C`, fresh identifier `f`, fresh record key
`nid`) followed by a successful `update_note_title` (title `T2`, content
`C2`), reading the note back observes title `T2` and content `C2`; the
blob lives under the original creation path — which the success of the
update forces to coincide with the stored url `"static/<f>.md"` — and the
record still carries that original url: no new identifier is minted on
update. -/
theorem C9_round_trip (s : SysState) (a nid : Int) (d f T T2 C C2 : String)
    (hacc : a ∈ s.accounts) (hdir : s.static_dir = some d)
    (hfresh_file : fsLookup s.files ("static/" ++ f ++ ".md") = none)
    (hfresh_id : ∀ n ∈ s.notes, n.note_id ≠ nid)
    (hupd : (update_note_title nid T2 C2 false false false false
        (add_note a T C f nid false false false s).2).1 = .ok ()) :
    (add_note a T C f nid false false false s).1 = .ok () ∧
    stripDotSlash (d ++ "/" ++ f ++ ".md") = "static/" ++ f ++ ".md" ∧
    ((update_note_title nid T2 C2 false false false false
        (add_note a T C f nid false false false s).2).2).notes.find?
        (fun n => n.note_id = nid) =
      some (Note.mk nid a T2 ("static/" ++ f ++ ".md")) ∧
    fsLookup ((update_note_title nid T2 C2 false false false false
        (add_note a T C f nid false false false s).2).2).files
      ("static/" ++ f ++ ".md") = some C2 := by
  have hadd : add_note a T C f nid false false false s =
      (.ok (), { s with
        files := fsWrite s.files (d ++ "/" ++ f ++ ".md") C,
        notes := s.notes ++ [Note.mk nid a T ("static/" ++ f ++ ".md")] }) := by
    unfold add_note accountQuery
    simp [hacc, hdir]
  rw [hadd] at hupd ⊢
  dsimp only at hupd ⊢
  have hfind1 : (s.notes ++ [Note.mk nid a T ("static/" ++ f ++ ".md")]).find?
      (fun n => n.note_id = nid) =
      some (Note.mk nid a T ("static/" ++ f ++ ".md")) :=
    find?_id_append s.notes _ nid rfl hfresh_id
  by_cases hpath :
      stripDotSlash (d ++ "/" ++ f ++ ".md") = "static/" ++ f ++ ".md"
  · have hlookS1 : fsLookup
        (fsWrite s.files (d ++ "/" ++ f ++ ".md") C)
        ("./" ++ ("static/" ++ f ++ ".md")) = some C := by
      unfold fsLookup fsWrite
      rw [stripDotSlash_dotSlash, hpath]
      simp [List.lookup]
    refine ⟨rfl, hpath, ?_, ?_⟩
    · unfold update_note_title noteQuery
      simp only [Bool.false_eq_true, if_false, hfind1, hlookS1,
        Option.isNone_some, Bool.false_or]
      exact find?_id_map_append s.notes _ nid T2 rfl hfresh_id
    · unfold update_note_title noteQuery
      simp only [Bool.false_eq_true, if_false, hfind1, hlookS1,
        Option.isNone_some, Bool.false_or]
      unfold fsLookup fsWrite
      rw [strip_static_url, stripDotSlash_dotSlash]
      simp [List.lookup]
  · exfalso
    have hlooknone : fsLookup
        (fsWrite s.files (d ++ "/" ++ f ++ ".md") C)
        ("./" ++ ("static/" ++ f ++ ".md")) = none := by
      rw [fsLookup_fsWrite_ne]
      · unfold fsLookup at hfresh_file ⊢
        rw [stripDotSlash_dotSlash]
        rw [strip_static_url] at hfresh_file
        exact hfresh_file
      · rw [stripDotSlash_dotSlash]
        intro hh
        exact hpath hh.symm
    unfold update_note_title noteQuery at hupd
    simp [hfind1, hlooknone] at hupd

theorem C9_witness :
    ((1 : Int) ∈ (SysState.mk [1] [] [] (some "static")).accounts ∧
     (SysState.mk [1] [] [] (some "static")).static_dir = some "static" ∧
     fsLookup (SysState.mk [1] [] [] (some "static")).files
       ("static/" ++ "f" ++ ".md") = none ∧
     (∀ n ∈ (SysState.mk [1] [] [] (some "static")).notes,
       n.note_id ≠ 7) ∧
     (update_note_title 7 "T2" "C2" false false false false
        (add_note 1 "T" "C" "f" 7 false false false
          (SysState.mk [1] [] [] (some "static"))).2).1 = .ok ()) ∧
    ((add_note 1 "T" "C" "f" 7 false false false
        (SysState.mk [1] [] [] (some "static"))).1 = .ok () ∧
     stripDotSlash ("static" ++ "/" ++ "f" ++ ".md") =
       "static/" ++ "f" ++ ".md" ∧
     ((update_note_title 7 "T2" "C2" false false false false
        (add_note 1 "T" "C" "f" 7 false false false
          (SysState.mk [1] [] [] (some "static"))).2).2).notes.find?
        (fun n => n.note_id = 7) =
       some (Note.mk 7 1 "T2" ("static/" ++ "f" ++ ".md")) ∧
     fsLookup ((update_note_title 7 "T2" "C2" false false false false
        (add_note 1 "T" "C" "f" 7 false false false
          (SysState.mk [1] [] [] (some "static"))).2).2).files
       ("static/" ++ "f" ++ ".md") = some "C2") :=
  ⟨⟨by decide, rfl, rfl, by decide, rfl⟩,
   C9_round_trip (SysState.mk [1] [] [] (some "static")) 1 7
     "static" "f" "T" "T2" "C" "C2"
     (by decide) rfl rfl (by decide) rfl⟩

/-- C10: `add_note` persists the blob to
`"<static_file_directory>/<identifier>.md"` but stores the url
`"static/<identifier>.md"`, while the update and delete endpoints resolve
the blob as `"./" ++ url`, ignoring the configured directory.  With any
configured directory other than `"static"` or `"./static"`, the two paths
name different files, so after a successful creation every content
update, title update and delete of that note fails with an internal error
at the file-delete step (the state is returned unchanged); for the two
agreeing configurations the resolved paths coincide. -/
theorem C10_update_delete_path_mismatch (s : SysState) (a nid : Int)
    (d f T T2 C C2 : String)
    (h1 : d ≠ "static") (h2 : d ≠ "./static")
    (hacc : a ∈ s.accounts) (hdir : s.static_dir = some d)
    (hfresh_file : fsLookup s.files ("static/" ++ f ++ ".md") = none)
    (hfresh_id : ∀ n ∈ s.notes, n.note_id ≠ nid) :
    (add_note a T C f nid false false false s).1 = .ok () ∧
    ((add_note a T C f nid false false false s).2).notes.find?
        (fun n => n.note_id = nid) =
      some (Note.mk nid a T ("static/" ++ f ++ ".md")) ∧
    fsLookup ((add_note a T C f nid false false false s).2).files
      (d ++ "/" ++ f ++ ".md") = some C ∧
    update_note_content nid C2 false false false
        (add_note a T C f nid false false false s).2 =
      (.error (.InternalError "Unable to update static file"),
       (add_note a T C f nid false false false s).2) ∧
    update_note_title nid T2 C2 false false false false
        (add_note a T C f nid false false false s).2 =
      (.error (.InternalError "Unable to update static file"),
       (add_note a T C f nid false false false s).2) ∧
    remove_note nid false false false
        (add_note a T C f nid false false false s).2 =
      (.error (.InternalError "Unable to delete static file"),
       (add_note a T C f nid false false false s).2) ∧
    stripDotSlash ("static" ++ "/" ++ f ++ ".md") = "static/" ++ f ++ ".md" ∧
    stripDotSlash ("./static" ++ "/" ++ f ++ ".md") =
      "static/" ++ f ++ ".md" := by
  have hadd : add_note a T C f nid false false false s =
      (.ok (), { s with
        files := fsWrite s.files (d ++ "/" ++ f ++ ".md") C,
        notes := s.notes ++ [Note.mk nid a T ("static/" ++ f ++ ".md")] }) := by
    unfold add_note accountQuery
    simp [hacc, hdir]
  rw [hadd]
  dsimp only
  have hfind1 : (s.notes ++ [Note.mk nid a T ("static/" ++ f ++ ".md")]).find?
      (fun n => n.note_id = nid) =
      some (Note.mk nid a T ("static/" ++ f ++ ".md")) :=
    find?_id_append s.notes _ nid rfl hfresh_id
  have hlooknone : fsLookup
      (fsWrite s.files (d ++ "/" ++ f ++ ".md") C)
      ("./" ++ ("static/" ++ f ++ ".md")) = none := by
    rw [fsLookup_fsWrite_ne]
    · unfold fsLookup at hfresh_file ⊢
      rw [stripDotSlash_dotSlash]
      rw [strip_static_url] at hfresh_file
      exact hfresh_file
    · rw [stripDotSlash_dotSlash]
      intro hh
      exact strip_ne d f h1 h2 hh.symm
  refine ⟨rfl, hfind1, fsLookup_fsWrite_self s.files _ C, ?_, ?_, ?_,
    strip_static f, strip_dotstatic f⟩
  · unfold update_note_content noteQuery
    simp [hfind1, hlooknone]
  · unfold update_note_title noteQuery
    simp [hfind1, hlooknone]
  · unfold remove_note noteQuery
    simp [hfind1, hlooknone]

theorem C10_witness :
    (("assets" : String) ≠ "static" ∧ ("assets" : String) ≠ "./static" ∧
     (1 : Int) ∈ (SysState.mk [1] [] [] (some "assets")).accounts ∧
     (SysState.mk [1] [] [] (some "assets")).static_dir = some "assets" ∧
     fsLookup (SysState.mk [1] [] [] (some "assets")).files
       ("static/" ++ "f" ++ ".md") = none ∧
     (∀ n ∈ (SysState.mk [1] [] [] (some "assets")).notes,
       n.note_id ≠ 7)) ∧
    ((add_note 1 "T" "C" "f" 7 false false false
        (SysState.mk [1] [] [] (some "assets"))).1 = .ok () ∧
     ((add_note 1 "T" "C" "f" 7 false false false
        (SysState.mk [1] [] [] (some "assets"))).2).notes.find?
        (fun n => n.note_id = 7) =
       some (Note.mk 7 1 "T" ("static/" ++ "f" ++ ".md")) ∧
     fsLookup ((add_note 1 "T" "C" "f" 7 false false false
        (SysState.mk [1] [] [] (some "assets"))).2).files
       ("assets" ++ "/" ++ "f" ++ ".md") = some "C" ∧
     update_note_content 7 "C2" false false false
        (add_note 1 "T" "C" "f" 7 false false false
          (SysState.mk [1] [] [] (some "assets"))).2 =
       (.error (.InternalError "Unable to update static file"),
        (add_note 1 "T" "C" "f" 7 false false false
          (SysState.mk [1] [] [] (some "assets"))).2) ∧
     update_note_title 7 "T2" "C2" false false false false
        (add_note 1 "T" "C" "f" 7 false false false
          (SysState.mk [1] [] [] (some "assets"))).2 =
       (.error (.InternalError "Unable to update static file"),
        (add_note 1 "T" "C" "f" 7 false false false
          (SysState.mk [1] [] [] (some "assets"))).2) ∧
     remove_note 7 false false false
        (add_note 1 "T" "C" "f" 7 false false false
          (SysState.mk [1] [] [] (some "assets"))).2 =
       (.error (.InternalError "Unable to delete static file"),
        (add_note 1 "T" "C" "f" 7 false false false
          (SysState.mk [1] [] [] (some "assets"))).2) ∧
     stripDotSlash ("static" ++ "/" ++ "f" ++ ".md") =
       "static/" ++ "f" ++ ".md" ∧
     stripDotSlash ("./static" ++ "/" ++ "f" ++ ".md") =
       "static/" ++ "f" ++ ".md") :=
  ⟨⟨by decide, by decide, by decide, rfl, rfl, by decide⟩,
   C10_update_delete_path_mismatch (SysState.mk [1] [] [] (some "assets"))
     1 7 "assets" "f" "T" "T2" "C" "C2"
     (by decide) (by decide) (by decide) rfl rfl (by decide)⟩

end SPS
